import Mathlib

/-!
Verification of the request-validation and auth-forwarding layer of a
Hono + Supabase demo API (an OpenAPI server in hono-api/src/index.ts and a
plain Hono server variant, plus the SQL schema of the profiles table).
External collaborators (the Supabase auth provider and the row-secured
profiles store) are modelled as function parameters; every handler is
embedded as a pure function from its request data, the collaborator
functions and the request-time clock to a concrete response.
-/

namespace HonoApi

/-- Identity attached to an authenticated request: id and email, as set by
verifyAuth and by the auth middleware (email defaulted to the empty string). -/
structure Identity where
  id : String
  email : String
deriving Repr, DecidableEq

/-- User object returned by the external auth provider; its email field may
be absent. -/
structure ProviderUser where
  id : String
  email : Option String
deriving Repr, DecidableEq

/-- Result of the getUser call of the external auth provider: a user when
the token resolves, and an error message when the provider reports one. -/
structure GetUserResult where
  user : Option ProviderUser
  error : Option String
deriving Repr, DecidableEq

/-- Session object issued by the external auth provider. -/
structure Session where
  access_token : String
  refresh_token : String
  expires_at : Option Int
deriving Repr, DecidableEq

/-- Row of the profiles table as declared by the SQL schema: the id equals
the owning identity id, name and bio are nullable, the timestamps are set by
the store. -/
structure Profile where
  id : String
  name : Option String
  bio : Option String
  created_at : String
  updated_at : String
deriving Repr, DecidableEq

/-- Response bodies of the API, one constructor per JSON shape appearing in
the handlers. -/
inductive Body where
  | errorMsg (error : String)
  | messageOnly (message : String)
  | messageTimestamp (message timestamp : String)
  | authOut (message : String) (user : Option ProviderUser) (session : Option Session)
  | refreshOut (message : String) (session : Option Session)
  | meOut (message : String) (user : Option Identity) (timestamp : String)
  | dataOut (message secretMessage : String) (items : List String) (timestamp : String)
  | profileOut (profile : Profile)
  | profileUpdated (message : String) (profile : Profile)
deriving Repr, DecidableEq

/-- HTTP response: status code and JSON body. -/
structure Response where
  status : Nat
  body : Body
deriving Repr, DecidableEq

/-- List form of the JavaScript string replace with a plain-string pattern
and empty replacement: removes the first occurrence of the pattern, when
there is one, and keeps the string unchanged otherwise. -/
def removeFirstOcc (pat : List Char) : List Char → List Char
  | [] => []
  | c :: rest =>
    if pat.isPrefixOf (c :: rest) then (c :: rest).drop pat.length
    else c :: removeFirstOcc pat rest

/-- JavaScript s.replace(pat, empty-string): removes the first occurrence of
pat from s. This embeds authHeader.replace with the Bearer prefix. -/
def jsReplaceOnce (s pat : String) : String :=
  String.mk (removeFirstOcc pat.data s.data)

/-- JavaScript s.startsWith(pre). -/
def jsStartsWith (s pre : String) : Bool :=
  pre.data.isPrefixOf s.data

/-- Header guard of verifyAuth and of the auth middleware: the JavaScript
test (not authHeader) or (not authHeader.startsWith Bearer-space) is true
when the header is absent, the empty string (falsy), or lacks the prefix. -/
def headerBad : Option String → Bool
  | none => true
  | some h => (h == "") || !(jsStartsWith h "Bearer ")

/-- JavaScript (user.email or empty-string): the email when present and the
empty string otherwise. -/
def jsOrEmpty : Option String → String
  | some s => s
  | none => ""

/-- Outcome of verifyAuth, mirroring the record returned by the source
function: the resolved user or an error message. The forwarded component is
a transcript of the token sent to the provider getUser call, none when the
local header check already rejected the request and no call was made. -/
structure VerifyOutcome where
  user : Option Identity
  error : Option String
  forwarded : Option String
deriving Repr, DecidableEq

/-- Embeds verifyAuth of hono-api/src/index.ts (lines 25 to 38): reject a
missing or malformed Authorization header locally; otherwise strip the
Bearer prefix with replace, forward the token to the provider getUser
operation, fail when it reports an error or no user, and on success return
the identity with email defaulted to the empty string. -/
def verifyAuth (getUser : String → GetUserResult) (authHeader : Option String) :
    VerifyOutcome :=
  if headerBad authHeader then
    ⟨none, some "Missing or invalid authorization header", none⟩
  else
    let token := jsReplaceOnce (authHeader.getD "") "Bearer "
    let r := getUser token
    match r.user, r.error with
    | some u, none => ⟨some ⟨u.id, jsOrEmpty u.email⟩, none, some token⟩
    | _, _ => ⟨none, some "Invalid or expired token", some token⟩

theorem removeFirstOcc_of_isPrefixOf {pat l : List Char} (h : pat.isPrefixOf l) :
    removeFirstOcc pat l = l.drop pat.length := by
  cases l with
  | nil =>
    have : pat = [] := by
      cases pat with
      | nil => rfl
      | cons c cs => simp [List.isPrefixOf] at h
    subst this
    rfl
  | cons c rest =>
    simp [removeFirstOcc, h]

theorem jsReplaceOnce_bearer {h : String} (hp : jsStartsWith h "Bearer " = true) :
    jsReplaceOnce h "Bearer " = String.mk (h.data.drop 7) := by
  unfold jsReplaceOnce
  rw [removeFirstOcc_of_isPrefixOf hp]
  have hlen : ("Bearer ".data.length) = 7 := rfl
  rw [hlen]

/-- Gregorian leap-year rule of the proleptic calendar used by the ECMAScript
Date type: divisible by 4 and not by 100, or divisible by 400. -/
def leapRule (y : Nat) : Prop :=
  (y % 4 = 0 ∧ y % 100 ≠ 0) ∨ y % 400 = 0

instance (y : Nat) : Decidable (leapRule y) := by
  unfold leapRule; infer_instance

/-- Boolean form of the leap-year rule. -/
def isLeap (y : Nat) : Bool :=
  decide (leapRule y)

/-- Number of days of the year y. -/
def daysInYear (y : Nat) : Nat :=
  if leapRule y then 366 else 365

/-- Days in the years 0, 1, ..., y - 1 of the proleptic Gregorian calendar:
365 per year plus one for every leap year among them. -/
def gregDays (y : Nat) : Nat :=
  365 * y + (y + 3) / 4 - (y + 99) / 100 + (y + 399) / 400

/-- Peels whole years off a day count: yearFrom fuel y days walks forward
from year y until fewer than a whole year of days remains, returning the
final year and the day of that year. The fuel bounds the walk; any fuel
with days at most 365 * fuel gives the fixpoint. -/
def yearFrom : Nat → Nat → Nat → Nat × Nat
  | 0, y, days => (y, days)
  | fuel + 1, y, days =>
    if days < daysInYear y then (y, days)
    else yearFrom fuel (y + 1) (days - daysInYear y)

/-- Month lengths of a year, January first. -/
def monthLengths (leap : Bool) : List Nat :=
  [31, if leap then 29 else 28, 31, 30, 31, 30, 31, 31, 30, 31, 30, 31]

/-- Walks the month table: returns the 1-based month and the 0-based day of
the month for a day of the year. -/
def monthFromAux : List Nat → Nat → Nat → Nat × Nat
  | [], m, doy => (m, doy)
  | len :: rest, m, doy =>
    if doy < len then (m, doy) else monthFromAux rest (m + 1) (doy - len)

/-- Month and 0-based day of the month for a 0-based day of the year. -/
def monthDayFrom (leap : Bool) (doy : Nat) : Nat × Nat :=
  monthFromAux (monthLengths leap) 1 doy

/-- Inverse of monthDayFrom: day of the year from month and day of month. -/
def monthRecon (leap : Bool) (m e : Nat) : Nat :=
  (((monthLengths leap).take (m - 1)).foldl (· + ·) 0) + e

/-- One checked instance of the month table roundtrip. -/
def monthOkOne (leap : Bool) (doy : Nat) : Bool :=
  let md := monthDayFrom leap doy
  (monthRecon leap md.1 md.2 == doy) && (1 ≤ md.1) && (md.1 ≤ 12) && (md.2 ≤ 30)

/-- Month table roundtrip at one day of the year, for both year kinds. -/
def monthOkAt (doy : Nat) : Bool :=
  monthOkOne true doy && (!(decide (doy < 365)) || monthOkOne false doy)

/-- Two-digit zero-padded decimal rendering. -/
def pad2 (n : Nat) : List Char :=
  [Nat.digitChar (n / 10 % 10), Nat.digitChar (n % 10)]

/-- Three-digit zero-padded decimal rendering. -/
def pad3 (n : Nat) : List Char :=
  [Nat.digitChar (n / 100 % 10), Nat.digitChar (n / 10 % 10), Nat.digitChar (n % 10)]

/-- Four-digit zero-padded decimal rendering. -/
def pad4 (n : Nat) : List Char :=
  [Nat.digitChar (n / 1000 % 10), Nat.digitChar (n / 100 % 10),
    Nat.digitChar (n / 10 % 10), Nat.digitChar (n % 10)]

/-- Models the ECMAScript Date toISOString rendering that every handler
reaches through new Date().toISOString(): the argument is the clock reading
in milliseconds since the Unix epoch, the result the UTC timestamp in the
format YYYY-MM-DDTHH:MM:SS.mmmZ over the proleptic Gregorian calendar. The
runtime builtin is not part of the repository; this follows its
specification for instants from 1970 up to the year 10000. -/
def toISOString (t : Nat) : String :=
  let days := t / 86400000
  let rem := t % 86400000
  let yd := yearFrom (days / 365 + 1) 1970 days
  let md := monthDayFrom (isLeap yd.1) yd.2
  String.mk (pad4 yd.1 ++ '-' :: (pad2 md.1 ++ '-' :: (pad2 (md.2 + 1) ++
    'T' :: (pad2 (rem / 3600000) ++ ':' :: (pad2 (rem % 3600000 / 60000) ++
    ':' :: (pad2 (rem % 60000 / 1000) ++ '.' :: (pad3 (rem % 1000) ++ ['Z'])))))))

theorem gregDays_succ (y : Nat) : gregDays (y + 1) = gregDays y + daysInYear y := by
  simp only [gregDays, daysInYear]
  split_ifs with hl
  · rcases hl with ⟨ha, hb⟩ | hc
    · have k1 : (y + 1 + 3) / 4 = (y + 3) / 4 + 1 := by omega
      have k2 : (y + 1 + 99) / 100 = (y + 99) / 100 := by omega
      have k3 : (y + 1 + 399) / 400 = (y + 399) / 400 := by omega
      rw [k1, k2, k3]
      omega
    · have k1 : (y + 1 + 3) / 4 = (y + 3) / 4 + 1 := by omega
      have k2 : (y + 1 + 99) / 100 = (y + 99) / 100 + 1 := by omega
      have k3 : (y + 1 + 399) / 400 = (y + 399) / 400 + 1 := by omega
      rw [k1, k2, k3]
      omega
  · simp only [leapRule, not_or, not_and, not_not] at hl
    obtain ⟨h1, h2⟩ := hl
    by_cases hy4 : y % 4 = 0
    · have hy100 : y % 100 = 0 := h1 hy4
      have k1 : (y + 1 + 3) / 4 = (y + 3) / 4 + 1 := by omega
      have k2 : (y + 1 + 99) / 100 = (y + 99) / 100 + 1 := by omega
      have k3 : (y + 1 + 399) / 400 = (y + 399) / 400 := by omega
      rw [k1, k2, k3]
      omega
    · have hy100 : y % 100 ≠ 0 := fun h => hy4 (by omega)
      have k1 : (y + 1 + 3) / 4 = (y + 3) / 4 := by omega
      have k2 : (y + 1 + 99) / 100 = (y + 99) / 100 := by omega
      have k3 : (y + 1 + 399) / 400 = (y + 399) / 400 := by omega
      rw [k1, k2, k3]
      omega

theorem yearFrom_spec : ∀ fuel y days, days ≤ 365 * fuel →
    gregDays (yearFrom fuel y days).1 + (yearFrom fuel y days).2 = gregDays y + days
    ∧ (yearFrom fuel y days).2 < daysInYear (yearFrom fuel y days).1
    ∧ y ≤ (yearFrom fuel y days).1 := by
  intro fuel
  induction fuel with
  | zero =>
    intro y days h
    have hz : days = 0 := by omega
    subst hz
    refine ⟨rfl, ?_, le_refl y⟩
    simp only [yearFrom, daysInYear]
    split <;> omega
  | succ fuel ih =>
    intro y days h
    by_cases hc : days < daysInYear y
    · simp [yearFrom, hc]
    · have h365 : 365 ≤ daysInYear y := by
        simp only [daysInYear]; split <;> omega
      have h' : days - daysInYear y ≤ 365 * fuel := by omega
      have := ih (y + 1) (days - daysInYear y) h'
      simp only [yearFrom, if_neg hc]
      refine ⟨?_, this.2.1, by omega⟩
      rw [this.1, gregDays_succ]
      omega

set_option maxRecDepth 4000 in
theorem monthOk_all : ∀ doy < 366, monthOkAt doy = true := by decide

theorem digitChar_inj : ∀ a < 10, ∀ b < 10, Nat.digitChar a = Nat.digitChar b → a = b := by
  decide

theorem render_inj (y1 m1 d1 hh1 mi1 ss1 ms1 y2 m2 d2 hh2 mi2 ss2 ms2 : Nat)
    (hy1 : y1 < 10000) (hy2 : y2 < 10000)
    (hm1 : m1 < 100) (hm2 : m2 < 100) (hd1 : d1 < 100) (hd2 : d2 < 100)
    (hhh1 : hh1 < 100) (hhh2 : hh2 < 100) (hmi1 : mi1 < 100) (hmi2 : mi2 < 100)
    (hss1 : ss1 < 100) (hss2 : ss2 < 100) (hms1 : ms1 < 1000) (hms2 : ms2 < 1000)
    (h : pad4 y1 ++ '-' :: (pad2 m1 ++ '-' :: (pad2 d1 ++ 'T' :: (pad2 hh1 ++
        ':' :: (pad2 mi1 ++ ':' :: (pad2 ss1 ++ '.' :: (pad3 ms1 ++ ['Z']))))))
      = pad4 y2 ++ '-' :: (pad2 m2 ++ '-' :: (pad2 d2 ++ 'T' :: (pad2 hh2 ++
        ':' :: (pad2 mi2 ++ ':' :: (pad2 ss2 ++ '.' :: (pad3 ms2 ++ ['Z']))))))) :
    y1 = y2 ∧ m1 = m2 ∧ d1 = d2 ∧ hh1 = hh2 ∧ mi1 = mi2 ∧ ss1 = ss2 ∧ ms1 = ms2 := by
  simp only [pad4, pad3, pad2, List.cons_append, List.nil_append, List.cons.injEq,
    and_true, true_and] at h
  obtain ⟨e1, e2, e3, e4, e5, e6, e7, e8, e9, e10, e11, e12, e13, e14, e15, e16, e17⟩ := h
  have q1 := digitChar_inj _ (Nat.mod_lt _ (by omega)) _ (Nat.mod_lt _ (by omega)) e1
  have q2 := digitChar_inj _ (Nat.mod_lt _ (by omega)) _ (Nat.mod_lt _ (by omega)) e2
  have q3 := digitChar_inj _ (Nat.mod_lt _ (by omega)) _ (Nat.mod_lt _ (by omega)) e3
  have q4 := digitChar_inj _ (Nat.mod_lt _ (by omega)) _ (Nat.mod_lt _ (by omega)) e4
  have q5 := digitChar_inj _ (Nat.mod_lt _ (by omega)) _ (Nat.mod_lt _ (by omega)) e5
  have q6 := digitChar_inj _ (Nat.mod_lt _ (by omega)) _ (Nat.mod_lt _ (by omega)) e6
  have q7 := digitChar_inj _ (Nat.mod_lt _ (by omega)) _ (Nat.mod_lt _ (by omega)) e7
  have q8 := digitChar_inj _ (Nat.mod_lt _ (by omega)) _ (Nat.mod_lt _ (by omega)) e8
  have q9 := digitChar_inj _ (Nat.mod_lt _ (by omega)) _ (Nat.mod_lt _ (by omega)) e9
  have q10 := digitChar_inj _ (Nat.mod_lt _ (by omega)) _ (Nat.mod_lt _ (by omega)) e10
  have q11 := digitChar_inj _ (Nat.mod_lt _ (by omega)) _ (Nat.mod_lt _ (by omega)) e11
  have q12 := digitChar_inj _ (Nat.mod_lt _ (by omega)) _ (Nat.mod_lt _ (by omega)) e12
  have q13 := digitChar_inj _ (Nat.mod_lt _ (by omega)) _ (Nat.mod_lt _ (by omega)) e13
  have q14 := digitChar_inj _ (Nat.mod_lt _ (by omega)) _ (Nat.mod_lt _ (by omega)) e14
  have q15 := digitChar_inj _ (Nat.mod_lt _ (by omega)) _ (Nat.mod_lt _ (by omega)) e15
  have q16 := digitChar_inj _ (Nat.mod_lt _ (by omega)) _ (Nat.mod_lt _ (by omega)) e16
  have q17 := digitChar_inj _ (Nat.mod_lt _ (by omega)) _ (Nat.mod_lt _ (by omega)) e17
  refine ⟨by omega, by omega, by omega, by omega, by omega, by omega, by omega⟩

theorem daysInYear_le (y : Nat) : daysInYear y ≤ 366 ∧ 365 ≤ daysInYear y := by
  simp only [daysInYear]; split <;> omega

theorem monthFacts (leap : Bool) (doy : Nat) (hdoy : doy < 366)
    (hne : leap = false → doy < 365) :
    monthRecon leap (monthDayFrom leap doy).1 (monthDayFrom leap doy).2 = doy
    ∧ 1 ≤ (monthDayFrom leap doy).1 ∧ (monthDayFrom leap doy).1 ≤ 12
    ∧ (monthDayFrom leap doy).2 ≤ 30 := by
  have h := monthOk_all doy hdoy
  simp only [monthOkAt, monthOkOne, Bool.and_eq_true, Bool.or_eq_true, beq_iff_eq,
    decide_eq_true_eq, Bool.not_eq_true', decide_eq_false_iff_not, not_lt] at h
  cases leap with
  | true => exact ⟨h.1.1.1.1, h.1.1.1.2, h.1.1.2, h.1.2⟩
  | false =>
    rcases h.2 with hge | hf
    · have := hne rfl
      omega
    · exact ⟨hf.1.1.1, hf.1.1.2, hf.1.2, hf.2⟩

set_option maxHeartbeats 1000000 in
theorem toISOString_inj (t1 t2 : Nat)
    (h1 : t1 < 253402300800000) (h2 : t2 < 253402300800000)
    (heq : toISOString t1 = toISOString t2) : t1 = t2 := by
  obtain ⟨y1, rd1, hyd1⟩ :
      ∃ y rd, yearFrom (t1 / 86400000 / 365 + 1) 1970 (t1 / 86400000) = (y, rd) :=
    ⟨_, _, rfl⟩
  obtain ⟨y2, rd2, hyd2⟩ :
      ∃ y rd, yearFrom (t2 / 86400000 / 365 + 1) 1970 (t2 / 86400000) = (y, rd) :=
    ⟨_, _, rfl⟩
  obtain ⟨m1, f1, hmd1⟩ : ∃ m f, monthDayFrom (isLeap y1) rd1 = (m, f) := ⟨_, _, rfl⟩
  obtain ⟨m2, f2, hmd2⟩ : ∃ m f, monthDayFrom (isLeap y2) rd2 = (m, f) := ⟨_, _, rfl⟩
  have spec1 := yearFrom_spec (t1 / 86400000 / 365 + 1) 1970 (t1 / 86400000) (by omega)
  have spec2 := yearFrom_spec (t2 / 86400000 / 365 + 1) 1970 (t2 / 86400000) (by omega)
  rw [hyd1] at spec1
  rw [hyd2] at spec2
  dsimp only at spec1 spec2
  have hrd1 : rd1 < 366 := by have := spec1.2.1; have := daysInYear_le y1; omega
  have hrd2 : rd2 < 366 := by have := spec2.2.1; have := daysInYear_le y2; omega
  have hy1b : y1 < 10000 := by
    have := spec1.1
    simp only [gregDays] at this
    omega
  have hy2b : y2 < 10000 := by
    have := spec2.1
    simp only [gregDays] at this
    omega
  have hleap1 : isLeap y1 = false → rd1 < 365 := by
    intro hf
    have := spec1.2.1
    simp only [isLeap, decide_eq_false_iff_not] at hf
    simp only [daysInYear, if_neg hf] at this
    omega
  have hleap2 : isLeap y2 = false → rd2 < 365 := by
    intro hf
    have := spec2.2.1
    simp only [isLeap, decide_eq_false_iff_not] at hf
    simp only [daysInYear, if_neg hf] at this
    omega
  have mf1 := monthFacts (isLeap y1) rd1 hrd1 hleap1
  have mf2 := monthFacts (isLeap y2) rd2 hrd2 hleap2
  rw [hmd1] at mf1
  rw [hmd2] at mf2
  dsimp only at mf1 mf2
  simp only [toISOString, hyd1, hyd2] at heq
  simp only [hmd1, hmd2] at heq
  have heqd := congrArg String.data heq
  dsimp only at heqd
  obtain ⟨gy, gm, gd, ghh, gmi, gss, gms⟩ :=
    render_inj y1 m1 (f1 + 1) (t1 % 86400000 / 3600000) (t1 % 86400000 % 3600000 / 60000)
      (t1 % 86400000 % 60000 / 1000) (t1 % 86400000 % 1000)
      y2 m2 (f2 + 1) (t2 % 86400000 / 3600000) (t2 % 86400000 % 3600000 / 60000)
      (t2 % 86400000 % 60000 / 1000) (t2 % 86400000 % 1000)
      hy1b hy2b (by omega) (by omega) (by omega) (by omega) (by omega) (by omega)
      (by omega) (by omega) (by omega) (by omega) (by omega) (by omega) heqd
  subst gy
  have hfe : f1 = f2 := by omega
  subst hfe
  subst gm
  have hrde : rd1 = rd2 := by
    have := mf1.1
    have := mf2.1
    omega
  have hdays : t1 / 86400000 = t2 / 86400000 := by
    have e1 := spec1.1
    have e2 := spec2.1
    omega
  omega

/-- JavaScript truthiness of a nullable string: true when present and not
the empty string. -/
def jsTruthyStr : Option String → Bool
  | some s => !(s == "")
  | none => false

/-- JavaScript (a or b) for a nullable string a: a when truthy, b otherwise. -/
def jsOr (a : Option String) (b : String) : String :=
  match a with
  | some s => if s = "" then b else s
  | none => b

/-- Body of the greet route. -/
structure GreetBody where
  name : String
deriving Repr, DecidableEq

/-- Embeds the greet handler of hono-api/src/index.ts (lines 168 to 174):
the validated body name and the request-time clock give a 200 with the
greeting and a freshly rendered timestamp. -/
def greetHandler (body : GreetBody) (now : Nat) : Response :=
  ⟨200, Body.messageTimestamp ("Hello, " ++ body.name ++ "!") (toISOString now)⟩

/-- Embeds the plain-server greet handler (lines 74 to 80 of the plain
server file): the body comes from c.req.json, whose parse failure is a
thrown exception; this handler has no try block, so a parse failure
propagates out of the handler and the handler produces no response. -/
def plainGreetHandler (parsed : Except String GreetBody) (now : Nat) :
    Except String Response := do
  let body ← parsed
  pure ⟨200, Body.messageTimestamp ("Hello, " ++ body.name ++ "!") (toISOString now)⟩

/-- Body of the signup and login routes. -/
structure AuthBody where
  email : String
  password : String
deriving Repr, DecidableEq

/-- Data part of the provider signUp result: user and session, each possibly
absent. -/
structure AuthData where
  user : Option ProviderUser
  session : Option Session
deriving Repr, DecidableEq

/-- Result of the provider signUp call: data, and an error message when the
provider reports a failure. -/
structure AuthResult where
  data : AuthData
  error : Option String
deriving Repr, DecidableEq

/-- Result of the provider signInWithPassword call, following its typing:
either an error message, or a user together with a session. -/
inductive SignInResult where
  | failure (msg : String)
  | success (user : ProviderUser) (session : Session)
deriving Repr, DecidableEq

/-- Result of the provider refreshSession call. -/
structure RefreshResult where
  session : Option Session
  error : Option String
deriving Repr, DecidableEq

/-- Embeds the signup handler of hono-api/src/index.ts (lines 198 to 216):
forwards the validated email and password to the provider signUp operation;
a provider error becomes a 400 with the provider message, success a 200
with the fixed message, the user when present and the session when present. -/
def signupHandler (signUp : String → String → AuthResult) (body : AuthBody) : Response :=
  let r := signUp body.email body.password
  match r.error with
  | some msg => ⟨400, Body.errorMsg msg⟩
  | none => ⟨200, Body.authOut "Account created successfully" r.data.user r.data.session⟩

/-- Embeds the login handler of hono-api/src/index.ts (lines 238 to 256):
forwards the credentials to the provider signInWithPassword; a provider
error becomes a 401 with the provider message, success a 200 with user and
session. -/
def loginHandler (signIn : String → String → SignInResult) (body : AuthBody) : Response :=
  match signIn body.email body.password with
  | .failure msg => ⟨401, Body.errorMsg msg⟩
  | .success u s => ⟨200, Body.authOut "Login successful" (some u) (some s)⟩

/-- Embeds AuthRequestSchema of hono-api/src/index.ts (lines 60 to 63): an
email-format check done by the validation library, taken as a parameter,
and a minimum password length of 6. -/
def authRequestValid (emailOk : String → Bool) (body : AuthBody) : Bool :=
  emailOk body.email && decide (6 ≤ body.password.length)

/-- Modelled from the spec: the 400 validation error response the OpenAPI
server returns when a request body fails schema validation, before any
handler or collaborator call (the validation hook is library code outside
the repository; the spec gives ValidationError as a 400 with an error body). -/
def validationErrorResponse : Response :=
  ⟨400, Body.errorMsg "Validation error"⟩

/-- Signup route of the OpenAPI server including body validation; the Bool
component records whether the provider signUp operation was invoked. -/
def signupPipeline (emailOk : String → Bool) (signUp : String → String → AuthResult)
    (body : AuthBody) : Response × Bool :=
  if authRequestValid emailOk body then (signupHandler signUp body, true)
  else (validationErrorResponse, false)

/-- Login route of the OpenAPI server including body validation; the Bool
component records whether the provider signInWithPassword was invoked. -/
def loginPipeline (emailOk : String → Bool) (signIn : String → String → SignInResult)
    (body : AuthBody) : Response × Bool :=
  if authRequestValid emailOk body then (loginHandler signIn body, true)
  else (validationErrorResponse, false)

/-- Embeds the plain-server signup handler (lines 85 to 115): the body parse
and all handling sit in a try block whose catch answers 400 Invalid request
body; an empty (falsy) email or password is rejected 400 before the provider
runs; otherwise the provider signUp is called, its error passed through as a
400 and its success reshaped as a 200. The Bool records whether signUp was
invoked. -/
def plainSignupHandler (signUp : String → String → AuthResult)
    (parsed : Except String AuthBody) : Response × Bool :=
  match parsed with
  | .error _ => (⟨400, Body.errorMsg "Invalid request body"⟩, false)
  | .ok body =>
    if body.email == "" || body.password == "" then
      (⟨400, Body.errorMsg "Email and password are required"⟩, false)
    else
      let r := signUp body.email body.password
      match r.error with
      | some msg => (⟨400, Body.errorMsg msg⟩, true)
      | none =>
        (⟨200, Body.authOut "Account created successfully" r.data.user r.data.session⟩, true)

/-- Embeds the plain-server login handler (lines 118 to 148), of the same
shape as the signup handler with provider failures answered 401. -/
def plainLoginHandler (signIn : String → String → SignInResult)
    (parsed : Except String AuthBody) : Response × Bool :=
  match parsed with
  | .error _ => (⟨400, Body.errorMsg "Invalid request body"⟩, false)
  | .ok body =>
    if body.email == "" || body.password == "" then
      (⟨400, Body.errorMsg "Email and password are required"⟩, false)
    else
      match signIn body.email body.password with
      | .failure msg => (⟨401, Body.errorMsg msg⟩, true)
      | .success u s => (⟨200, Body.authOut "Login successful" (some u) (some s)⟩, true)

/-- Body of the refresh route. -/
structure RefreshBody where
  refresh_token : String
deriving Repr, DecidableEq

/-- Embeds the plain-server refresh handler (lines 151 to 177). -/
def plainRefreshHandler (refreshSession : String → RefreshResult)
    (parsed : Except String RefreshBody) : Response × Bool :=
  match parsed with
  | .error _ => (⟨400, Body.errorMsg "Invalid request body"⟩, false)
  | .ok body =>
    if body.refresh_token == "" then
      (⟨400, Body.errorMsg "Refresh token is required"⟩, false)
    else
      let r := refreshSession body.refresh_token
      match r.error with
      | some msg => (⟨401, Body.errorMsg msg⟩, true)
      | none => (⟨200, Body.refreshOut "Token refreshed successfully" r.session⟩, true)

/-- Embeds authMiddleware of the plain server (lines 29 to 58): a 401
response on a missing or malformed header; otherwise the stripped token
goes to the provider getUser, 401 when it reports an error or no user, and
on success the resolved identity (email defaulted to the empty string) is
handed to the protected handler. -/
def authMiddleware (getUser : String → GetUserResult) (authHeader : Option String) :
    Except Response Identity :=
  if headerBad authHeader then
    Except.error ⟨401, Body.errorMsg "Missing or invalid authorization header"⟩
  else
    let token := jsReplaceOnce (authHeader.getD "") "Bearer "
    let r := getUser token
    match r.user, r.error with
    | some u, none => Except.ok ⟨u.id, jsOrEmpty u.email⟩
    | _, _ => Except.error ⟨401, Body.errorMsg "Invalid or expired token"⟩

/-- Embeds the logout route of the plain server (lines 180 to 197) together
with its middleware: the Bool records whether the provider signOut operation
was invoked; signOut acts for the bearer token the authenticated client was
built with. -/
def logoutPipeline (getUser : String → GetUserResult) (signOutErr : String → Option String)
    (authHeader : Option String) : Response × Bool :=
  match authMiddleware getUser authHeader with
  | .error resp => (resp, false)
  | .ok _ =>
    let token := match authHeader with
      | some h => jsReplaceOnce h "Bearer "
      | none => ""
    match signOutErr token with
    | some msg => (⟨400, Body.errorMsg msg⟩, true)
    | none => (⟨200, Body.messageOnly "Logout successful"⟩, true)

/-- Embeds the protected me handler of hono-api/src/index.ts (lines 278 to
291): verifyAuth, then 401 with the auth error (defaulted to Unauthorized)
on failure, or a 200 carrying the identity and a fresh timestamp. -/
def protectedMeHandler (getUser : String → GetUserResult) (authHeader : Option String)
    (now : Nat) : Response :=
  let v := verifyAuth getUser authHeader
  if jsTruthyStr v.error || v.user.isNone then
    ⟨401, Body.errorMsg (jsOr v.error "Unauthorized")⟩
  else
    ⟨200, Body.meOut "You are authenticated!" v.user (toISOString now)⟩

/-- Embeds the protected data handler of hono-api/src/index.ts (lines 311
to 327). The secret message interpolates the verified email; the accessor
defaults to the empty string on the branch the guard makes unreachable. -/
def protectedDataHandler (getUser : String → GetUserResult) (authHeader : Option String)
    (now : Nat) : Response :=
  let v := verifyAuth getUser authHeader
  if jsTruthyStr v.error || v.user.isNone then
    ⟨401, Body.errorMsg (jsOr v.error "Unauthorized")⟩
  else
    ⟨200, Body.dataOut "This is protected data"
      ("Hello " ++ (v.user.map Identity.email).getD "" ++ ", this is your secret data!")
      ["item1", "item2", "item3"] (toISOString now)⟩

/-- Row-scoped single select of the profiles store: the rows matching the
id filter, demanded to be exactly one by the single modifier; zero or many
matching rows are a store error. -/
def profilesSelectSingle (store : List Profile) (uid : String) : Except String Profile :=
  match store.filter (fun p => p.id == uid) with
  | [p] => Except.ok p
  | _ => Except.error "JSON object requested, multiple (or no) rows returned"

/-- Transcript of one profile read: the id the store query was filtered by
(none when auth failed and no query ran) and the response. -/
structure GetOutcome where
  queriedId : Option String
  response : Response
deriving Repr, DecidableEq

/-- Embeds the profile read handler of hono-api/src/index.ts (lines 353 to
373): verifyAuth, then a single select filtered by the verified identity
id; a store error surfaces as a 400 with the store message. -/
def getProfileHandler (getUser : String → GetUserResult) (store : List Profile)
    (authHeader : Option String) : GetOutcome :=
  let v := verifyAuth getUser authHeader
  if jsTruthyStr v.error || v.user.isNone then
    ⟨none, ⟨401, Body.errorMsg (jsOr v.error "Unauthorized")⟩⟩
  else
    let uid := (v.user.map Identity.id).getD ""
    match profilesSelectSingle store uid with
    | .error msg => ⟨some uid, ⟨400, Body.errorMsg msg⟩⟩
    | .ok p => ⟨some uid, ⟨200, Body.profileOut p⟩⟩

/-- Body of the profile update route, as admitted by
ProfileUpdateRequestSchema (lines 109 to 112): optional name, optional bio,
and nothing else. -/
structure ProfileUpdateBody where
  name : Option String
  bio : Option String
deriving Repr, DecidableEq

/-- Applies one update payload to one row, as the store does: a column
present in the payload takes the supplied value, an absent column keeps its
value (the serialized payload holds only the fields present in the body,
since JSON serialization drops undefined fields); updated_at is set by the
store trigger to the store-side clock. -/
def applyUpdate (p : Profile) (b : ProfileUpdateBody) (ts : String) : Profile :=
  { p with
    name := match b.name with | some v => some v | none => p.name
    bio := match b.bio with | some v => some v | none => p.bio
    updated_at := ts }

/-- Row-scoped update of the profiles store with the single modifier: every
row matching the id filter gets the payload applied, the updated rows are
returned and must be exactly one; the new store state stands regardless. -/
def profilesUpdateSingle (store : List Profile) (uid : String)
    (b : ProfileUpdateBody) (ts : String) : Except String Profile × List Profile :=
  let newStore := store.map fun p => if p.id == uid then applyUpdate p b ts else p
  match newStore.filter (fun p => p.id == uid) with
  | [p] => (Except.ok p, newStore)
  | _ => (Except.error "JSON object requested, multiple (or no) rows returned", newStore)

/-- Transcript of one profile update: the id the store update was filtered
by (none when auth failed and no update ran), the response, and the store
state afterwards. -/
structure UpdateOutcome where
  queriedId : Option String
  response : Response
  newStore : List Profile
deriving Repr, DecidableEq

/-- Embeds the profile update handler of hono-api/src/index.ts (lines 400
to 425): verifyAuth, then the update of the row matching the verified
identity id with the validated name and bio fields; a store error surfaces
as a 400 with the store message. -/
def updateProfileHandler (getUser : String → GetUserResult) (store : List Profile)
    (authHeader : Option String) (body : ProfileUpdateBody) (ts : String) : UpdateOutcome :=
  let v := verifyAuth getUser authHeader
  if jsTruthyStr v.error || v.user.isNone then
    ⟨none, ⟨401, Body.errorMsg (jsOr v.error "Unauthorized")⟩, store⟩
  else
    let uid := (v.user.map Identity.id).getD ""
    let r := profilesUpdateSingle store uid body ts
    match r.1 with
    | .error msg => ⟨some uid, ⟨400, Body.errorMsg msg⟩, r.2⟩
    | .ok p => ⟨some uid, ⟨200, Body.profileUpdated "Profile updated successfully" p⟩, r.2⟩

/-- Unfolding equation of verifyAuth, for proofs. -/
theorem verifyAuth_eq (getUser : String → GetUserResult) (hh : Option String) :
    verifyAuth getUser hh =
      if headerBad hh then ⟨none, some "Missing or invalid authorization header", none⟩
      else
        match (getUser (jsReplaceOnce (hh.getD "") "Bearer ")).user,
            (getUser (jsReplaceOnce (hh.getD "") "Bearer ")).error with
        | some u, none =>
          ⟨some ⟨u.id, jsOrEmpty u.email⟩, none, some (jsReplaceOnce (hh.getD "") "Bearer ")⟩
        | _, _ =>
          ⟨none, some "Invalid or expired token", some (jsReplaceOnce (hh.getD "") "Bearer ")⟩ :=
  rfl

/-- Headers the claim calls malformed make the shared guard fire. -/
theorem headerBad_of_malformed (h : Option String)
    (hbad : h = none ∨ ∀ s, h = some s → ¬ (jsStartsWith s "Bearer " = true)) :
    headerBad h = true := by
  rcases hbad with rfl | hns
  · rfl
  · cases h with
    | none => rfl
    | some s =>
      have := hns s rfl
      simp only [headerBad, Bool.or_eq_true, Bool.not_eq_true']
      right
      cases hq : jsStartsWith s "Bearer "
      · rfl
      · exact absurd hq this

/-- Provider stub resolving every token to a fixed user. -/
def stubGetUserOk : String → GetUserResult :=
  fun _ => ⟨some ⟨"uid-1", some "a@b.com"⟩, none⟩

/-- Provider stub rejecting every token. -/
def stubGetUserBad : String → GetUserResult :=
  fun _ => ⟨none, some "token rejected"⟩

/-- Provider stub whose signUp reports a failure. -/
def stubSignUpErr : String → String → AuthResult :=
  fun _ _ => ⟨⟨none, none⟩, some "User already registered"⟩

/-- Provider stub whose signUp succeeds. -/
def stubSignUpOk : String → String → AuthResult :=
  fun _ _ => ⟨⟨some ⟨"uid-1", some "a@b.com"⟩, some ⟨"at", "rt", some 100⟩⟩, none⟩

/-- Provider stub whose signInWithPassword reports a failure. -/
def stubSignInErr : String → String → SignInResult :=
  fun _ _ => .failure "Invalid login credentials"

/-- Provider stub whose signInWithPassword succeeds. -/
def stubSignInOk : String → String → SignInResult :=
  fun _ _ => .success ⟨"uid-1", some "a@b.com"⟩ ⟨"at", "rt", some 100⟩

/-- Provider stub whose signOut succeeds. -/
def stubSignOutOk : String → Option String :=
  fun _ => none

/-- Provider stub whose signOut reports a failure. -/
def stubSignOutErr : String → Option String :=
  fun _ => some "sign out failed"

/-- Email-format stub accepting every string. -/
def stubEmailOk : String → Bool :=
  fun _ => true

/-- One-row profiles store for witnesses. -/
def stubStore : List Profile :=
  [⟨"uid-1", none, none, "2024-01-01T00:00:00.000Z", "2024-01-01T00:00:00.000Z"⟩]

/-- C1: every request to a protected route (logout on the plain server; me,
data, profile read and profile update on the OpenAPI server) whose
Authorization header is absent or does not start with the literal prefix
Bearer-space is answered with status 401 and a body holding one error
string, on every one of those routes. -/
theorem c1_protected_routes_401 (h : Option String)
    (hbad : h = none ∨ ∀ s, h = some s → ¬ (jsStartsWith s "Bearer " = true))
    (getUser : String → GetUserResult) (signOutErr : String → Option String)
    (store : List Profile) (body : ProfileUpdateBody) (ts : String) (now : Nat) :
    (∃ e, (logoutPipeline getUser signOutErr h).1 = ⟨401, Body.errorMsg e⟩)
    ∧ (∃ e, protectedMeHandler getUser h now = ⟨401, Body.errorMsg e⟩)
    ∧ (∃ e, protectedDataHandler getUser h now = ⟨401, Body.errorMsg e⟩)
    ∧ (∃ e, (getProfileHandler getUser store h).response = ⟨401, Body.errorMsg e⟩)
    ∧ (∃ e, (updateProfileHandler getUser store h body ts).response = ⟨401, Body.errorMsg e⟩) := by
  have hb := headerBad_of_malformed h hbad
  refine ⟨⟨"Missing or invalid authorization header", ?_⟩,
    ⟨"Missing or invalid authorization header", ?_⟩,
    ⟨"Missing or invalid authorization header", ?_⟩,
    ⟨"Missing or invalid authorization header", ?_⟩,
    ⟨"Missing or invalid authorization header", ?_⟩⟩
  · simp [logoutPipeline, authMiddleware, hb]
  · simp [protectedMeHandler, verifyAuth_eq, hb, jsTruthyStr, jsOr]
  · simp [protectedDataHandler, verifyAuth_eq, hb, jsTruthyStr, jsOr]
  · simp [getProfileHandler, verifyAuth_eq, hb, jsTruthyStr, jsOr]
  · simp [updateProfileHandler, verifyAuth_eq, hb, jsTruthyStr, jsOr]

/-- Witness for C1 at the concrete header Token-abc. -/
theorem c1_protected_routes_401_witness :
    (∃ e, (logoutPipeline stubGetUserOk stubSignOutOk (some "Token abc")).1
      = ⟨401, Body.errorMsg e⟩)
    ∧ (∃ e, protectedMeHandler stubGetUserOk (some "Token abc") 0 = ⟨401, Body.errorMsg e⟩)
    ∧ (∃ e, protectedDataHandler stubGetUserOk (some "Token abc") 0 = ⟨401, Body.errorMsg e⟩)
    ∧ (∃ e, (getProfileHandler stubGetUserOk stubStore (some "Token abc")).response
      = ⟨401, Body.errorMsg e⟩)
    ∧ (∃ e, (updateProfileHandler stubGetUserOk stubStore (some "Token abc") ⟨none, none⟩
        "ts").response = ⟨401, Body.errorMsg e⟩) :=
  c1_protected_routes_401 (some "Token abc")
    (Or.inr (fun s hs => by cases hs; decide))
    stubGetUserOk stubSignOutOk stubStore ⟨none, none⟩ "ts" 0

/-- C3: for every header that starts with Bearer-space, verifyAuth forwards
to the provider exactly the header with its first 7 characters removed; it
fails with the invalid-or-expired-token error exactly when the provider
reports an error or no user; and on success it returns the provider user
with the email defaulted to the empty string when absent. -/
theorem c3_verifyAuth_forwarding (getUser : String → GetUserResult) (h : String)
    (hp : jsStartsWith h "Bearer " = true) :
    (verifyAuth getUser (some h)).forwarded = some (String.mk (h.data.drop 7))
    ∧ ((verifyAuth getUser (some h)).error = some "Invalid or expired token"
        ↔ ((getUser (String.mk (h.data.drop 7))).error ≠ none
            ∨ (getUser (String.mk (h.data.drop 7))).user = none))
    ∧ (∀ u, (getUser (String.mk (h.data.drop 7))).user = some u →
        (getUser (String.mk (h.data.drop 7))).error = none →
        (verifyAuth getUser (some h)).user = some ⟨u.id, jsOrEmpty u.email⟩
        ∧ (u.email = none → (verifyAuth getUser (some h)).user = some ⟨u.id, ""⟩)) := by
  have hne : (h == "") = false := by
    cases hq : h == ""
    · rfl
    · exfalso
      have hh : h = "" := by simpa using hq
      rw [hh] at hp
      exact absurd hp (by decide)
  have hb : headerBad (some h) = false := by
    simp [headerBad, hne, hp]
  have htok : jsReplaceOnce h "Bearer " = String.mk (h.data.drop 7) := jsReplaceOnce_bearer hp
  rcases hg : getUser (String.mk (h.data.drop 7)) with ⟨ou, oe⟩
  cases ou with
  | none =>
    cases oe with
    | none =>
      refine ⟨?_, ?_, ?_⟩ <;>
        simp [verifyAuth_eq, hb, htok, hg]
    | some e =>
      refine ⟨?_, ?_, ?_⟩ <;>
        simp [verifyAuth_eq, hb, htok, hg]
  | some u =>
    cases oe with
    | none =>
      refine ⟨?_, ?_, ?_⟩
      · simp [verifyAuth_eq, hb, htok, hg]
      · simp [verifyAuth_eq, hb, htok, hg]
      · intro u' hu' _
        have huu : u = u' := by simpa [hg] using hu'
        subst huu
        constructor
        · simp [verifyAuth_eq, hb, htok, hg]
        · intro hmail
          simp [verifyAuth_eq, hb, htok, hg, hmail, jsOrEmpty]
    | some e =>
      refine ⟨?_, ?_, ?_⟩ <;>
        simp [verifyAuth_eq, hb, htok, hg]

/-- Witness for C3 at the concrete header Bearer-space tok123. -/
theorem c3_verifyAuth_forwarding_witness :
    (verifyAuth stubGetUserOk (some "Bearer tok123")).forwarded
      = some (String.mk ("Bearer tok123".data.drop 7))
    ∧ ((verifyAuth stubGetUserOk (some "Bearer tok123")).error
          = some "Invalid or expired token"
        ↔ ((stubGetUserOk (String.mk ("Bearer tok123".data.drop 7))).error ≠ none
            ∨ (stubGetUserOk (String.mk ("Bearer tok123".data.drop 7))).user = none))
    ∧ (∀ u, (stubGetUserOk (String.mk ("Bearer tok123".data.drop 7))).user = some u →
        (stubGetUserOk (String.mk ("Bearer tok123".data.drop 7))).error = none →
        (verifyAuth stubGetUserOk (some "Bearer tok123")).user
          = some ⟨u.id, jsOrEmpty u.email⟩
        ∧ (u.email = none →
            (verifyAuth stubGetUserOk (some "Bearer tok123")).user = some ⟨u.id, ""⟩)) :=
  c3_verifyAuth_forwarding stubGetUserOk "Bearer tok123" (by decide)

/-- C10: the header consisting of exactly Bearer-space passes the local
check: verifyAuth does not fail with the missing-or-malformed-header error,
the empty token is forwarded to the provider, and the outcome is exactly
the mapping of the provider answer for the empty token. -/
theorem c10_bearer_only_header (getUser : String → GetUserResult) :
    (verifyAuth getUser (some "Bearer ")).error
      ≠ some "Missing or invalid authorization header"
    ∧ (verifyAuth getUser (some "Bearer ")).forwarded = some ""
    ∧ verifyAuth getUser (some "Bearer ") =
        (match (getUser "").user, (getUser "").error with
          | some u, none => ⟨some ⟨u.id, jsOrEmpty u.email⟩, none, some ""⟩
          | _, _ => ⟨none, some "Invalid or expired token", some ""⟩) := by
  have hb : headerBad (some "Bearer ") = false := by decide
  have htok : jsReplaceOnce "Bearer " "Bearer " = "" := by decide
  rcases hg : getUser "" with ⟨ou, oe⟩
  cases ou <;> cases oe <;>
    simp [verifyAuth_eq, hb, htok, hg]

/-- Shape of a successful verifyAuth outcome: when a user is returned, the
error is none and the forwarded token is the stripped header. -/
theorem verifyAuth_success_shape (getUser : String → GetUserResult) (hh : Option String)
    (i : Identity) (hok : (verifyAuth getUser hh).user = some i) :
    verifyAuth getUser hh = ⟨some i, none, some (jsReplaceOnce (hh.getD "") "Bearer ")⟩ := by
  rw [verifyAuth_eq] at hok ⊢
  by_cases hb : headerBad hh = true
  · simp [hb] at hok
  · simp only [if_neg hb] at hok ⊢
    rcases hg : getUser (jsReplaceOnce (hh.getD "") "Bearer ") with ⟨ou, oe⟩
    rw [hg] at hok
    cases ou <;> cases oe <;> simp_all

/-- Fallback row for indexed access in statements. -/
def noProfile : Profile :=
  ⟨"", none, none, "", ""⟩

theorem getD_map_lt (f : Profile → Profile) :
    ∀ (xs : List Profile) (i : Nat), i < xs.length →
      (xs.map f).getD i noProfile = f (xs.getD i noProfile) := by
  intro xs
  induction xs with
  | nil => intro i hi; simp at hi
  | cons a as ih =>
    intro i hi
    cases i with
    | zero => simp
    | succ n =>
      simp only [List.map_cons, List.getD_cons_succ]
      exact ih n (by simpa using hi)

/-- New store state of the update handler after successful auth: every row
matching the verified id gets the payload, every other row is unchanged. -/
theorem updateProfileHandler_newStore (getUser : String → GetUserResult)
    (store : List Profile) (h : Option String) (ident : Identity)
    (hok : (verifyAuth getUser h).user = some ident)
    (body : ProfileUpdateBody) (ts : String) :
    (updateProfileHandler getUser store h body ts).newStore
      = store.map (fun p => if p.id == ident.id then applyUpdate p body ts else p) := by
  have hv := verifyAuth_success_shape getUser h ident hok
  simp [updateProfileHandler, hv, profilesUpdateSingle, jsTruthyStr]
  split <;> (split <;> rfl)

/-- C2: for every request to the profile routes that passes auth
verification, the store query is filtered by exactly the verified identity
id, for every request body (the body type admits only optional name and
bio, so no id can come from it). -/
theorem c2_profile_query_scoped (getUser : String → GetUserResult) (store : List Profile)
    (h : Option String) (ident : Identity)
    (hok : (verifyAuth getUser h).user = some ident)
    (body : ProfileUpdateBody) (ts : String) :
    (getProfileHandler getUser store h).queriedId = some ident.id
    ∧ (updateProfileHandler getUser store h body ts).queriedId = some ident.id := by
  have hv := verifyAuth_success_shape getUser h ident hok
  constructor
  · simp [getProfileHandler, hv, jsTruthyStr]
    split <;> simp
  · simp [updateProfileHandler, hv, jsTruthyStr, profilesUpdateSingle]
    split <;> simp

/-- Witness for C2 at a concrete authenticated request. -/
theorem c2_profile_query_scoped_witness :
    (getProfileHandler stubGetUserOk stubStore (some "Bearer t")).queriedId
      = some (Identity.id ⟨"uid-1", "a@b.com"⟩)
    ∧ (updateProfileHandler stubGetUserOk stubStore (some "Bearer t")
        ⟨some "Alice", none⟩ "ts").queriedId = some (Identity.id ⟨"uid-1", "a@b.com"⟩) :=
  c2_profile_query_scoped stubGetUserOk stubStore (some "Bearer t")
    ⟨"uid-1", "a@b.com"⟩ (by decide) ⟨some "Alice", none⟩ "ts"

/-- C4: for every authenticated update, a field among name and bio absent
from the body keeps its stored value on every row, a present field takes
the supplied value on the updated row, and rows of other identities are
untouched. -/
theorem c4_update_partial_merge (getUser : String → GetUserResult) (store : List Profile)
    (h : Option String) (ident : Identity)
    (hok : (verifyAuth getUser h).user = some ident)
    (body : ProfileUpdateBody) (ts : String) (i : Nat) (hi : i < store.length) :
    (updateProfileHandler getUser store h body ts).newStore.length = store.length
    ∧ (body.name = none →
        ((updateProfileHandler getUser store h body ts).newStore.getD i noProfile).name
          = (store.getD i noProfile).name)
    ∧ (body.bio = none →
        ((updateProfileHandler getUser store h body ts).newStore.getD i noProfile).bio
          = (store.getD i noProfile).bio)
    ∧ (∀ v, body.name = some v → (store.getD i noProfile).id = ident.id →
        ((updateProfileHandler getUser store h body ts).newStore.getD i noProfile).name
          = some v)
    ∧ (∀ v, body.bio = some v → (store.getD i noProfile).id = ident.id →
        ((updateProfileHandler getUser store h body ts).newStore.getD i noProfile).bio
          = some v)
    ∧ ((store.getD i noProfile).id ≠ ident.id →
        (updateProfileHandler getUser store h body ts).newStore.getD i noProfile
          = store.getD i noProfile) := by
  rw [updateProfileHandler_newStore getUser store h ident hok body ts]
  rw [getD_map_lt _ store i hi]
  generalize store.getD i noProfile = p0
  refine ⟨by simp, ?_, ?_, ?_, ?_, ?_⟩
  · intro hn
    by_cases hc : p0.id = ident.id <;> simp [hc, applyUpdate, hn]
  · intro hb2
    by_cases hc : p0.id = ident.id <;> simp [hc, applyUpdate, hb2]
  · intro v hvn hid
    simp [hid, applyUpdate, hvn]
  · intro v hvb hid
    simp [hid, applyUpdate, hvb]
  · intro hne
    simp [applyUpdate, hne]

/-- Witness for C4 at a concrete authenticated update with bio omitted. -/
theorem c4_update_partial_merge_witness :
    (updateProfileHandler stubGetUserOk stubStore (some "Bearer t")
        ⟨some "Alice", none⟩ "ts2").newStore.length = stubStore.length
    ∧ ((⟨some "Alice", none⟩ : ProfileUpdateBody).name = none →
        ((updateProfileHandler stubGetUserOk stubStore (some "Bearer t")
          ⟨some "Alice", none⟩ "ts2").newStore.getD 0 noProfile).name
          = (stubStore.getD 0 noProfile).name)
    ∧ ((⟨some "Alice", none⟩ : ProfileUpdateBody).bio = none →
        ((updateProfileHandler stubGetUserOk stubStore (some "Bearer t")
          ⟨some "Alice", none⟩ "ts2").newStore.getD 0 noProfile).bio
          = (stubStore.getD 0 noProfile).bio)
    ∧ (∀ v, (⟨some "Alice", none⟩ : ProfileUpdateBody).name = some v →
        (stubStore.getD 0 noProfile).id = Identity.id ⟨"uid-1", "a@b.com"⟩ →
        ((updateProfileHandler stubGetUserOk stubStore (some "Bearer t")
          ⟨some "Alice", none⟩ "ts2").newStore.getD 0 noProfile).name = some v)
    ∧ (∀ v, (⟨some "Alice", none⟩ : ProfileUpdateBody).bio = some v →
        (stubStore.getD 0 noProfile).id = Identity.id ⟨"uid-1", "a@b.com"⟩ →
        ((updateProfileHandler stubGetUserOk stubStore (some "Bearer t")
          ⟨some "Alice", none⟩ "ts2").newStore.getD 0 noProfile).bio = some v)
    ∧ ((stubStore.getD 0 noProfile).id ≠ Identity.id ⟨"uid-1", "a@b.com"⟩ →
        (updateProfileHandler stubGetUserOk stubStore (some "Bearer t")
          ⟨some "Alice", none⟩ "ts2").newStore.getD 0 noProfile
          = stubStore.getD 0 noProfile) :=
  c4_update_partial_merge stubGetUserOk stubStore (some "Bearer t")
    ⟨"uid-1", "a@b.com"⟩ (by decide) ⟨some "Alice", none⟩ "ts2" 0 (by decide)

/-- Unfolding equation of authMiddleware, for proofs. -/
theorem authMiddleware_eq (getUser : String → GetUserResult) (hh : Option String) :
    authMiddleware getUser hh =
      if headerBad hh then
        Except.error ⟨401, Body.errorMsg "Missing or invalid authorization header"⟩
      else
        match (getUser (jsReplaceOnce (hh.getD "") "Bearer ")).user,
            (getUser (jsReplaceOnce (hh.getD "") "Bearer ")).error with
        | some u, none => Except.ok ⟨u.id, jsOrEmpty u.email⟩
        | _, _ => Except.error ⟨401, Body.errorMsg "Invalid or expired token"⟩ :=
  rfl

/-- Every middleware rejection is a 401 with an error-string body. -/
theorem authMiddleware_error_shape (getUser : String → GetUserResult) (h : Option String)
    (resp : Response) (he : authMiddleware getUser h = .error resp) :
    resp.status = 401 ∧ ∃ e, resp.body = Body.errorMsg e := by
  rw [authMiddleware_eq] at he
  split at he
  · cases he
    exact ⟨rfl, "Missing or invalid authorization header", rfl⟩
  · rcases hg : getUser (jsReplaceOnce (h.getD "") "Bearer ") with ⟨ou, oe⟩
    rw [hg] at he
    cases ou with
    | some u =>
      cases oe with
      | none => simp at he
      | some e =>
        cases he
        exact ⟨rfl, "Invalid or expired token", rfl⟩
    | none =>
      cases oe with
      | none =>
        cases he
        exact ⟨rfl, "Invalid or expired token", rfl⟩
      | some e =>
        cases he
        exact ⟨rfl, "Invalid or expired token", rfl⟩

/-- C6: the logout route invokes the provider signOut only after auth
verification succeeded: a verification failure is answered 401 with signOut
never called, and after success a signOut error is a 400 with its message
while a clean signOut is a 200. -/
theorem c6_logout_requires_session (getUser : String → GetUserResult)
    (signOutErr : String → Option String) (h : Option String) :
    (∀ resp, authMiddleware getUser h = .error resp →
      logoutPipeline getUser signOutErr h = (resp, false)
      ∧ resp.status = 401 ∧ ∃ e, resp.body = Body.errorMsg e)
    ∧ (∀ ident, authMiddleware getUser h = .ok ident →
        (∀ msg, signOutErr (jsReplaceOnce (h.getD "") "Bearer ") = some msg →
          logoutPipeline getUser signOutErr h = (⟨400, Body.errorMsg msg⟩, true))
        ∧ (signOutErr (jsReplaceOnce (h.getD "") "Bearer ") = none →
          logoutPipeline getUser signOutErr h
            = (⟨200, Body.messageOnly "Logout successful"⟩, true))) := by
  have htok : (match h with
      | some s => jsReplaceOnce s "Bearer "
      | none => "") = jsReplaceOnce (h.getD "") "Bearer " := by
    cases h <;> rfl
  constructor
  · intro resp hres
    refine ⟨?_, authMiddleware_error_shape getUser h resp hres⟩
    simp [logoutPipeline, hres]
  · intro ident hok
    constructor
    · intro msg hmsg
      simp [logoutPipeline, hok, htok, hmsg]
    · intro hnone
      simp [logoutPipeline, hok, htok, hnone]

/-- C5: for every well-formed signup or login body, a provider failure is
passed through with its message, as a 400 on signup and a 401 on login; a
provider success is a 200 with message, user and session. -/
theorem c5_auth_status_mapping (signUp : String → String → AuthResult)
    (signIn : String → String → SignInResult) (body : AuthBody) :
    (∀ msg, (signUp body.email body.password).error = some msg →
      signupHandler signUp body = ⟨400, Body.errorMsg msg⟩)
    ∧ ((signUp body.email body.password).error = none →
      signupHandler signUp body = ⟨200, Body.authOut "Account created successfully"
        (signUp body.email body.password).data.user
        (signUp body.email body.password).data.session⟩)
    ∧ (∀ msg, signIn body.email body.password = .failure msg →
      loginHandler signIn body = ⟨401, Body.errorMsg msg⟩)
    ∧ (∀ u s, signIn body.email body.password = .success u s →
      loginHandler signIn body = ⟨200, Body.authOut "Login successful" (some u) (some s)⟩) := by
  refine ⟨?_, ?_, ?_, ?_⟩
  · intro msg hmsg
    simp [signupHandler, hmsg]
  · intro hnone
    simp [signupHandler, hnone]
  · intro msg hmsg
    simp [loginHandler, hmsg]
  · intro u s hus
    simp [loginHandler, hus]

/-- C9: the greet route answers 200 with the greeting built from the body
name and the timestamp rendered from the request-time clock, on both
servers; the timestamp is a fresh per-call rendering, and two calls at
different clock instants (within the representable range) carry different
timestamps, so their responses differ. -/
theorem c9_greet_message_and_fresh_timestamp (body : GreetBody) (now : Nat) :
    greetHandler body now
      = ⟨200, Body.messageTimestamp ("Hello, " ++ body.name ++ "!") (toISOString now)⟩
    ∧ plainGreetHandler (.ok body) now
      = .ok ⟨200, Body.messageTimestamp ("Hello, " ++ body.name ++ "!") (toISOString now)⟩
    ∧ (∀ t1 t2, t1 < 253402300800000 → t2 < 253402300800000 → t1 ≠ t2 →
        greetHandler body t1 ≠ greetHandler body t2) := by
  refine ⟨rfl, rfl, ?_⟩
  intro t1 t2 hb1 hb2 hne hcontra
  apply hne
  apply toISOString_inj t1 t2 hb1 hb2
  simpa [greetHandler, Response.mk.injEq, Body.messageTimestamp.injEq] using hcontra

/-- Counterexample to C7: on the plain server, a signup body with the
3-character password abc passes the only check there (non-empty email and
password), so the provider signUp is invoked, and with a succeeding
provider the response is a 200, not a 400 validation error. -/
theorem c7_short_password_counterexample :
    ("abc".length < 6)
    ∧ (plainSignupHandler stubSignUpOk (.ok ⟨"a@b.com", "abc"⟩)).2 = true
    ∧ (plainSignupHandler stubSignUpOk (.ok ⟨"a@b.com", "abc"⟩)).1.status = 200 := by
  refine ⟨by decide, by decide, by decide⟩

/-- C7 as amended: on the OpenAPI server, every signup or login body with a
password shorter than 6 characters fails schema validation and is answered
400 with an error body before the provider is called; on the plain server,
the handlers reject only an empty email or password, so a non-empty short
password is forwarded to the provider. -/
theorem c7_short_password_amended (emailOk : String → Bool)
    (signUp : String → String → AuthResult) (signIn : String → String → SignInResult)
    (body : AuthBody) (hshort : body.password.length < 6) :
    signupPipeline emailOk signUp body = (validationErrorResponse, false)
    ∧ loginPipeline emailOk signIn body = (validationErrorResponse, false)
    ∧ validationErrorResponse.status = 400
    ∧ (∃ e, validationErrorResponse.body = Body.errorMsg e)
    ∧ (body.email ≠ "" → body.password ≠ "" →
        (plainSignupHandler signUp (.ok body)).2 = true
        ∧ (plainLoginHandler signIn (.ok body)).2 = true) := by
  have hd : decide (6 ≤ body.password.length) = false := decide_eq_false (by omega)
  refine ⟨?_, ?_, rfl, ⟨"Validation error", rfl⟩, ?_⟩
  · simp [signupPipeline, authRequestValid, hd]
  · simp [loginPipeline, authRequestValid, hd]
  · intro hne1 hne2
    constructor
    · simp only [plainSignupHandler]
      rw [if_neg (by simp [hne1, hne2])]
      split <;> rfl
    · simp only [plainLoginHandler]
      rw [if_neg (by simp [hne1, hne2])]
      split <;> rfl

/-- Witness for the amended C7 at the concrete password abc. -/
theorem c7_short_password_amended_witness :
    signupPipeline stubEmailOk stubSignUpOk ⟨"a@b.com", "abc"⟩
      = (validationErrorResponse, false)
    ∧ loginPipeline stubEmailOk stubSignInOk ⟨"a@b.com", "abc"⟩
      = (validationErrorResponse, false)
    ∧ validationErrorResponse.status = 400
    ∧ (∃ e, validationErrorResponse.body = Body.errorMsg e)
    ∧ ((⟨"a@b.com", "abc"⟩ : AuthBody).email ≠ "" →
        (⟨"a@b.com", "abc"⟩ : AuthBody).password ≠ "" →
        (plainSignupHandler stubSignUpOk (.ok ⟨"a@b.com", "abc"⟩)).2 = true
        ∧ (plainLoginHandler stubSignInOk (.ok ⟨"a@b.com", "abc"⟩)).2 = true) :=
  c7_short_password_amended stubEmailOk stubSignUpOk stubSignInOk
    ⟨"a@b.com", "abc"⟩ (by decide)

/-- Counterexample to C8: the plain-server greet handler has no try block,
so a JSON parse failure propagates out of it uncaught, and in particular
the handler does not produce the generic 400 response. -/
theorem c8_greet_uncaught_counterexample :
    plainGreetHandler (.error "SyntaxError: Unexpected token") 0
      = .error "SyntaxError: Unexpected token"
    ∧ plainGreetHandler (.error "SyntaxError: Unexpected token") 0
      ≠ .ok ⟨400, Body.errorMsg "Invalid request body"⟩ :=
  ⟨rfl, fun h => Except.noConfusion h⟩

/-- C8 as amended: on the plain server the signup, login and refresh
handlers catch a JSON body parse failure and answer a generic 400 Invalid
request body without calling the provider; the greet handler has no catch,
so there the parse failure escapes the handler uncaught and the handler
produces no 400. -/
theorem c8_parse_errors_amended (now : Nat) (e : String)
    (signUp : String → String → AuthResult) (signIn : String → String → SignInResult)
    (refreshSession : String → RefreshResult) :
    plainSignupHandler signUp (.error e)
      = (⟨400, Body.errorMsg "Invalid request body"⟩, false)
    ∧ plainLoginHandler signIn (.error e)
      = (⟨400, Body.errorMsg "Invalid request body"⟩, false)
    ∧ plainRefreshHandler refreshSession (.error e)
      = (⟨400, Body.errorMsg "Invalid request body"⟩, false)
    ∧ plainGreetHandler (.error e) now = .error e :=
  ⟨rfl, rfl, rfl, rfl⟩

end HonoApi
